import Mathlib

/-!
Verification of the staged system-design report pipeline
(backend/agent.py, backend/tools.py, backend/schemas.py).

Python floats are modelled as exact rationals (`ℚ`); decimal literals of the
source (0.1, 1.8, 1.4, ...) are taken at their decimal value.  Python's
built-in `round(x, n)` rounds half to even; `pyRound` reproduces that on ℚ.
Python integers are `ℕ` where the source guarantees non-negative values
(`dau`, `peak_concurrency`, ...), and `//` is `Nat.div`.
-/

/-- Python `round(x)` on an exact rational: nearest integer, ties to even. -/
def pyRound (x : ℚ) : ℤ :=
  if x - ⌊x⌋ < 1/2 then ⌊x⌋
  else if 1/2 < x - ⌊x⌋ then ⌊x⌋ + 1
  else if ⌊x⌋ % 2 = 0 then ⌊x⌋ else ⌊x⌋ + 1

/-- Python `round(x, 2)`. -/
def round2 (x : ℚ) : ℚ := pyRound (x * 100) / 100

/-- Python `round(x, 3)`. -/
def round3 (x : ℚ) : ℚ := pyRound (x * 1000) / 1000

/-- Result dict of `tools.calc_qps`. -/
structure QpsResult where
  base_qps : ℚ
  peak_qps : ℚ
  read_qps : ℚ
  write_qps : ℚ
  deriving Repr, DecidableEq

/-- tools.py `calc_qps` (lines 7-17).  The Python default `burst_factor=1.5`
is never used by the pipeline, which always passes the factor explicitly. -/
def calc_qps (dau peak_concurrency : ℕ) (read_write_ratio burst_factor : ℚ) :
    QpsResult :=
  let base_qps : ℚ := max ((dau : ℚ) * (1/10) / 86400) ((peak_concurrency : ℚ) / 10)
  let peak_qps := base_qps * burst_factor
  let read_qps := peak_qps * (read_write_ratio / (1 + read_write_ratio))
  let write_qps := peak_qps - read_qps
  { base_qps := round2 base_qps
    peak_qps := round2 peak_qps
    read_qps := round2 read_qps
    write_qps := round2 write_qps }

/-- Result dict of `tools.calc_storage`. -/
structure StorageResult where
  daily_gb : ℚ
  total_gb_retention : ℚ
  monthly_growth_gb : ℚ
  deriving Repr, DecidableEq

/-- tools.py `calc_storage` (lines 20-28). -/
def calc_storage (records_per_user : ℕ) (avg_record_size_kb : ℚ)
    (retention_days : ℕ) (dau : ℕ) : StorageResult :=
  let daily_gb := (dau : ℚ) * records_per_user * avg_record_size_kb / 1024 / 1024
  let total_gb := daily_gb * retention_days
  let monthly_growth_gb := daily_gb * 30
  { daily_gb := round3 daily_gb
    total_gb_retention := round3 total_gb
    monthly_growth_gb := round3 monthly_growth_gb }

/-- tools.py `generate_mermaid_flow` (lines 31-37). -/
def generate_mermaid_flow (components flows : List String) : String :=
  String.intercalate "\n"
    ("flowchart TD" :: (components.map (fun c => "  " ++ c) ++ flows.map (fun f => "  " ++ f)))

/-- tools.py `generate_mermaid_components` (lines 40-44). -/
def generate_mermaid_components (components : List String) : String :=
  String.intercalate "\n" ("graph LR" :: components.map (fun c => "  " ++ c))

/-- Python `str.upper()`, modelled characterwise over the string's
characters (the flags matched below are ASCII, where the two agree). -/
def pyUpper (s : String) : String := String.mk (s.data.map Char.toUpper)

/-- tools.py line 49: `any(flag.upper() in {"HIPAA", "PHI"} for flag in ...)`. -/
def hasHealthTag (flags : List String) : Bool :=
  flags.any (fun f => pyUpper f == "HIPAA" || pyUpper f == "PHI")

/-- tools.py line 51: `any(flag.upper() in {"PCI", "CARD"} for flag in ...)`. -/
def hasCardTag (flags : List String) : Bool :=
  flags.any (fun f => pyUpper f == "PCI" || pyUpper f == "CARD")

/-- tools.py line 53: `any(flag.upper() == "PII" for flag in data_types)`. -/
def hasPiiTag (flags : List String) : Bool :=
  flags.any (fun f => pyUpper f == "PII")

/-- Advisory string appended by tools.py line 50. -/
def riskPHI : String := "PHI present: require HIPAA controls, BAA, access logging"

/-- Advisory string appended by tools.py line 52. -/
def riskPCI : String := "PCI data: segment card data environment, tokenization, yearly SAQ"

/-- Advisory string appended by tools.py line 54. -/
def riskPII : String := "PII present: need data minimization, DSR workflows, encryption at rest"

/-- Advisory string appended by tools.py line 56 when nothing matched. -/
def riskGeneric : String := "Standard web-app risks: OWASP Top 10, SSRF, IDOR, rate limiting"

/-- tools.py `risk_checklist` (lines 47-57): the three `if ... append` steps
build the list in source order, then the generic advisory is used when the
list is still empty. -/
def risk_checklist (compliance_flags data_types : List String) : List String :=
  let risks :=
    (if hasHealthTag (compliance_flags ++ data_types) then [riskPHI] else []) ++
    (if hasCardTag (compliance_flags ++ data_types) then [riskPCI] else []) ++
    (if hasPiiTag data_types then [riskPII] else [])
  if risks = [] then [riskGeneric] else risks

/-- schemas.py `budget_level` validator (lines 37-42). -/
inductive BudgetLevel
  | low
  | medium
  | high
  deriving Repr, DecidableEq

/-- schemas.py `traffic_pattern` validator (lines 44-49). -/
inductive TrafficPattern
  | steady
  | spiky
  deriving Repr, DecidableEq

/-- String value carried by a validated `budget_level`. -/
def BudgetLevel.toStr : BudgetLevel → String
  | .low => "low"
  | .medium => "medium"
  | .high => "high"

/-- String value carried by a validated `traffic_pattern`. -/
def TrafficPattern.toStr : TrafficPattern → String
  | .steady => "steady"
  | .spiky => "spiky"

/-- schemas.py `InputPayload` (lines 9-49).  Enum-valued fields use the
inductive types above, so a constructed value always satisfies the two field
validators; the numeric bounds are captured by `ValidInput`. -/
structure InputPayload where
  app_name : String
  description : String
  dau : ℕ
  peak_rps : ℕ
  read_write_ratio : ℚ
  regions : List String
  budget_level : BudgetLevel
  domain : Option String
  end_users : Option String
  user_roles : List String
  peak_concurrent_users : Option ℕ
  traffic_pattern : TrafficPattern
  data_types : List String
  compliance : List String
  latency_target_ms_p50 : Option ℕ
  latency_target_ms_p95 : Option ℕ
  availability_target : Option ℚ
  rpo_hours : Option ℚ
  rto_hours : Option ℚ
  apis_needed : List String
  api_rate_limits_rpm : Option ℕ
  team_size : Option ℕ
  special_constraints : List String
  deriving Repr, DecidableEq

/-- Pydantic numeric constraints on the fields the pipeline reads:
`dau ≥ 1`, `peak_rps ≥ 1`, `read_write_ratio > 0`, and
`peak_concurrent_users ≥ 1` when present (schemas.py lines 13-15 and 23). -/
def ValidInput (inp : InputPayload) : Prop :=
  1 ≤ inp.dau ∧ 1 ≤ inp.peak_rps ∧ 0 < inp.read_write_ratio ∧
    1 ≤ inp.peak_concurrent_users.getD 1

instance (inp : InputPayload) : Decidable (ValidInput inp) := by
  unfold ValidInput; infer_instance

/-- Python `x or default` for an optional list-valued state entry: a missing
key and an empty list are both falsy. -/
def pyOrList (o : Option (List α)) (d : List α) : List α :=
  match o with
  | none => d
  | some l => if l.isEmpty then d else l

/-- Python `x or default` for an optional string-valued state entry: a
missing key and `""` are both falsy. -/
def pyOrStr (o : Option String) (d : String) : String :=
  match o with
  | none => d
  | some s => if s = "" then d else s

/-- Python `x or default` for an optional int
(`inp.get("peak_concurrent_users") or (inp["dau"] // 10)`): a missing key and
`0` are both falsy. -/
def pyOrNat (o : Option ℕ) (d : ℕ) : ℕ :=
  match o with
  | none => d
  | some n => if n = 0 then d else n

/-- Python `x or default` for a plain list (`inp.get("compliance") or [...]`,
where the schema guarantees the key is present but possibly empty). -/
def pyListOr (l : List α) (d : List α) : List α :=
  if l.isEmpty then d else l

/-- Outcome of the one external generation-service call of a stage: the
transport either raises or returns the raw response text (`res.content`). -/
inductive LLMOutcome
  | raises
  | returns (content : String)

/-- Typed per-stage view of the external world used to thread the pipeline
embedding: `call` is the service transport and `parse` composes `json.loads`
with reading the decoded value at the shape the stage consumes.  This view is
an abstraction, not the client itself: in the source only a raised exception
(transport failure or JSON syntax error) reaches the fallback, while a
decoded value of the wrong shape is handed to the stage as-is — the faithful
client-level model is `callLLMJson` below.  The pipeline theorems in this
file exercise this typed view only in mock mode, where no call is made and
`parse` is never consulted, or for conclusions that hold whatever `parse`
returns. -/
structure LLMEnv (α : Type) where
  call : String → String → LLMOutcome
  parse : String → Option α

/-- agent.py lines 81-85: strip the response text and remove one surrounding
markdown code fence. -/
def stripFences (raw : String) : String :=
  let content := raw.trim
  if content.startsWith "```json" then ((content.drop 7).dropRight 3).trim
  else if content.startsWith "```" then ((content.drop 3).dropRight 3).trim
  else content

/-- Suffix appended to every system prompt (agent.py line 76). -/
def jsonOnlySuffix : String :=
  "\nRespond ONLY with valid JSON. Do not include markdown code blocks or explanations."

/-- Typed-view counterpart of `_call_llm` used to thread the pipeline
stages, paired with the number of external calls made.  `mock` is
`self.mock_mode` (no `OPENAI_API_KEY` credential configured); in mock mode the
fallback is returned with no call (agent.py lines 72-73).  The non-mock
branch overapproximates the source's recovery: the real client falls back
only on a raised exception and passes a decoded-but-ill-shaped value through
to the stage — see the faithful `callLLMJson` below.  No theorem in this file
relies on this typed non-mock fallback behavior. -/
def callLLM (mock : Bool) (env : LLMEnv α) (system_prompt user_prompt : String)
    (fallback : α) : α × ℕ :=
  if mock then (fallback, 0)
  else
    match env.call (system_prompt ++ jsonOnlySuffix) user_prompt with
    | .raises => (fallback, 1)
    | .returns raw =>
      match env.parse (stripFences raw) with
      | none => (fallback, 1)
      | some v => (v, 1)

/-- A decoded JSON value, as returned by `json.loads`. -/
inductive JsonValue
  | obj (fields : List (String × JsonValue))
  | arr (elems : List JsonValue)
  | str (s : String)
  | num (x : ℚ)
  | boolean (b : Bool)
  | null

/-- Whether a decoded value has one of the structured shapes — object or
list — that the pipeline stages consume. -/
def JsonValue.isStructured : JsonValue → Bool
  | .obj _ => true
  | .arr _ => true
  | _ => false

/-- The external world exactly as `_call_llm` sees it: the service transport,
and `json.loads` applied to the fence-stripped response text.  `loads s =
none` exactly when `s` is not syntactically valid JSON (a raised
`JSONDecodeError`, caught by the `except`); `loads s = some j` hands back the
decoded value `j`, whatever its shape. -/
structure JsonLLMEnv where
  call : String → String → LLMOutcome
  loads : String → Option JsonValue

/-- agent.py `AgenticCopilot._call_llm` (lines 71-89) at the client's actual
untyped level, paired with the number of external calls made.  The `try`
block covers the service call and `json.loads`, so the fallback is reached
only in mock mode or on a raised exception — transport failure or JSON syntax
error.  A successfully decoded value is returned as-is, even when it is not
the object or list the stage expects (the stage's own `res.get` field
accesses happen after `_call_llm` returns, outside the `try`). -/
def callLLMJson (mock : Bool) (env : JsonLLMEnv) (system_prompt user_prompt : String)
    (fallback : JsonValue) : JsonValue × ℕ :=
  if mock then (fallback, 0)
  else
    match env.call (system_prompt ++ jsonOnlySuffix) user_prompt with
    | .raises => (fallback, 1)
    | .returns raw =>
      match env.loads (stripFences raw) with
      | none => (fallback, 1)
      | some j => (j, 1)

/-- A world whose every call raises, at the client level. -/
def jsonRaisingEnv : JsonLLMEnv :=
  { call := fun _ _ => LLMOutcome.raises, loads := fun _ => none }

/-- A world answering every call with the bare JSON string `"hello"`:
syntactically valid JSON, happily decoded by `json.loads`, but neither an
object nor a list. -/
def strHelloEnv : JsonLLMEnv :=
  { call := fun _ _ => LLMOutcome.returns "\"hello\"",
    loads := fun _ => some (JsonValue.str "hello") }

/-- schemas.py `ReportSection`: one architecture option. -/
structure ReportSection where
  title : String
  bullets : List String
  deriving Repr, DecidableEq

/-- schemas.py `APIExample`: one endpoint descriptor produced by the API
stage; the `request`/`response` dicts are modelled as association lists. -/
structure APIExample where
  method : String
  path : String
  description : String
  request : List (String × String)
  response : List (String × String)
  rate_limit_rpm : Option ℕ
  idempotent : Bool
  deriving Repr, DecidableEq

/-- Sizing dict built by `AgenticCopilot._sizing` (agent.py line 119). -/
structure Sizing where
  qps : QpsResult
  storage : StorageResult
  bandwidth_gbps : ℚ
  deriving Repr, DecidableEq

/-- Parsed architecture-stage response: `res.get(key, default)` reads each
key independently, so every key is optional. -/
structure ArchRes where
  options : Option (List ReportSection)
  recommended_option : Option String
  flows : Option (List String)
  components : Option (List String)

/-- Parsed security-stage response (keys read independently). -/
structure SecRes where
  security_plan : Option (List String)
  threat_model : Option (List String)
  observability : Option (List String)

/-- Parsed final-stage response (keys read independently). -/
structure FinalRes where
  summary : Option String
  tech_stack : Option (List String)
  phased_rollout : Option (List String)

/-- agent.py `AgentState` as a node sees it: `assumptions` and `plan_steps`
are accumulating channels (`operator.add`), the remaining channels are
replacing and may still be absent (`none`) until some node writes them.  The
extraneous `"notes"` key returned by `_intake_validate` is not part of the
schema and is not merged. -/
structure AgentState where
  input : InputPayload
  assumptions : List String
  plan_steps : List String
  sizing : Option Sizing
  architecture_options : Option (List ReportSection)
  recommended_option : Option String
  mermaid_flow : Option String
  mermaid_components : Option String
  api_design : Option (List APIExample)
  performance_plan : Option (List String)
  reliability_plan : Option (List String)
  security_plan : Option (List String)
  threat_model : Option (List String)
  observability : Option (List String)

/-- `workflow.invoke({"input": payload.model_dump()})` (agent.py lines
67-69): both list channels start empty and every replacing channel starts
absent. -/
def initState (inp : InputPayload) : AgentState :=
  { input := inp, assumptions := [], plan_steps := [], sizing := none,
    architecture_options := none, recommended_option := none,
    mermaid_flow := none, mermaid_components := none, api_design := none,
    performance_plan := none, reliability_plan := none, security_plan := none,
    threat_model := none, observability := none }

/-- agent.py `_intake_validate` (lines 92-94) merged into the state:
`InputPayload(**state["input"])` re-validates an already validated value, so
`input` is rewritten unchanged, and one assumption is appended. -/
def intakeNode (s : AgentState) : AgentState :=
  { s with assumptions := s.assumptions ++ ["Inputs normalized"] }

/-- Assumption strings built by `_planner` (agent.py lines 98-105); the
domain assumption is only added when the field is present and non-empty
(Python truthiness of `inp.get("domain")`). -/
def plannerAssumptions (inp : InputPayload) : List String :=
  ["Traffic pattern is " ++ inp.traffic_pattern.toStr ++ " with peak " ++
      toString inp.peak_rps ++ " rps",
   "Regions: " ++ String.intercalate ", " inp.regions,
   "Budget level: " ++ inp.budget_level.toStr] ++
  (match inp.domain with
   | some dom => if dom = "" then [] else ["Application domain: " ++ dom]
   | none => [])

/-- agent.py `_planner` (lines 96-109) merged into the state. -/
def plannerNode (s : AgentState) : AgentState :=
  { s with
    assumptions := s.assumptions ++ plannerAssumptions s.input,
    plan_steps := s.plan_steps ++
      ["sizing", "architecture", "api", "performance", "security", "reliability"] }

/-- agent.py line 114: burst multiplier from the traffic pattern. -/
def sizing_multiplier (inp : InputPayload) : ℚ :=
  if inp.traffic_pattern = TrafficPattern.spiky then 9/5 else 7/5

/-- agent.py line 115: `inp.get("peak_concurrent_users") or (inp["dau"] // 10)`. -/
def sizing_peak_concurrency (inp : InputPayload) : ℕ :=
  pyOrNat inp.peak_concurrent_users (inp.dau / 10)

/-- Sizing dict computed by `_sizing` (agent.py lines 111-120); the
bandwidth line assumes a 2KB average payload:
`round(qps["peak_qps"] * 2 * 1024 / 1e6, 3)`. -/
def sizingCalc (inp : InputPayload) : Sizing :=
  let qps := calc_qps inp.dau (sizing_peak_concurrency inp)
    inp.read_write_ratio (sizing_multiplier inp)
  { qps := qps
    storage := calc_storage 12 8 365 inp.dau
    bandwidth_gbps := round3 (qps.peak_qps * 2 * 1024 / 1000000) }

/-- agent.py `_sizing` merged into the state. -/
def sizingNode (s : AgentState) : AgentState :=
  { s with sizing := some (sizingCalc s.input) }

/-- agent.py lines 137-140: `default_options`. -/
def default_options : List ReportSection :=
  [{ title := "MVP (monolith)",
     bullets := ["FastAPI + SQLite (dev) / Postgres (prod)", "Redis cache"] },
   { title := "Scale-out",
     bullets := ["Microservices on K8s", "Managed DB (RDS)", "Kafka for async"] }]

/-- agent.py line 143: the fallback recommendation is budget-dependent. -/
def arch_fb_recommended (inp : InputPayload) : String :=
  if inp.budget_level = BudgetLevel.low then "MVP (monolith)" else "Scale-out"

/-- agent.py line 144: fallback flow edges. -/
def arch_fb_flows : List String :=
  ["A[Client]-->B[LB]", "B-->C[App Server]", "C-->D[(Database)]"]

/-- agent.py line 145: fallback component nodes. -/
def arch_fb_components : List String :=
  ["A[Client]", "B[LB]", "C[App Server]", "D[(Database)]"]

/-- agent.py lines 141-146: the architecture-stage fallback object. -/
def arch_fallback (inp : InputPayload) : ArchRes :=
  { options := some default_options
    recommended_option := some (arch_fb_recommended inp)
    flows := some arch_fb_flows
    components := some arch_fb_components }

/-- agent.py line 124. -/
def archSysPrompt : String :=
  "You are a senior system architect. Generate architecture options for a new app."

/-- agent.py lines 125-136: the user-prompt f-string of `_architecture`. -/
def archUserPrompt (inp : InputPayload) : String :=
  "\n        App: " ++ inp.app_name ++
  "\n        Description: " ++ inp.description ++
  "\n        Scale: " ++ toString inp.dau ++ " DAU, " ++ toString inp.peak_rps ++ " Peak RPS" ++
  "\n        Budget: " ++ inp.budget_level.toStr ++
  "\n\n        Return a JSON object with:" ++
  "\n        1. 'options': list of 2 options. Each with 'title' and 'bullets' (list of strings)." ++
  "\n        2. 'recommended_option': the title of the best option." ++
  "\n        3. 'flows': list of mermaid-style edges (e.g. 'A[User]->B[LB]')." ++
  "\n        4. 'components': list of mermaid-style nodes (e.g. 'A[User]')." ++
  "\n        "

/-- agent.py `_architecture` (lines 122-155) merged into the state; each
field of the response is read with `res.get(key, fallback[key])`. -/
def architectureNode (mock : Bool) (env : LLMEnv ArchRes) (s : AgentState) :
    AgentState :=
  let inp := s.input
  let res := (callLLM mock env archSysPrompt (archUserPrompt inp) (arch_fallback inp)).1
  { s with
    architecture_options := some (res.options.getD default_options),
    recommended_option := some (res.recommended_option.getD (arch_fb_recommended inp)),
    mermaid_flow := some (generate_mermaid_flow (res.components.getD arch_fb_components)
      (res.flows.getD arch_fb_flows)),
    mermaid_components := some (generate_mermaid_components
      (res.components.getD arch_fb_components)) }

/-- agent.py line 159. -/
def apiSysPrompt : String :=
  "You are a senior API designer. Generate relevant API endpoints for this app."

/-- agent.py lines 160-166: the user-prompt f-string of `_apis`. -/
def apiUserPrompt (inp : InputPayload) : String :=
  "\n        App: " ++ inp.app_name ++
  "\n        Description: " ++ inp.description ++
  "\n        \n        Return a JSON list of 3-4 API objects. Each object with: " ++
  "\n        'method', 'path', 'description', 'request' (dict), 'response' (dict), 'rate_limit_rpm' (int), 'idempotent' (bool)." ++
  "\n        "

/-- agent.py lines 167-177: the API-stage fallback list. -/
def api_fallback : List APIExample :=
  [{ method := "POST", path := "/api/v1/resource",
     description := "Create a new resource.",
     request := [("name", "string")], response := [("id", "string")],
     rate_limit_rpm := some 60, idempotent := false }]

/-- agent.py `_apis` (lines 157-179) merged into the state: the response (a
list, not a dict) is stored as-is. -/
def apisNode (mock : Bool) (env : LLMEnv (List APIExample)) (s : AgentState) :
    AgentState :=
  let res := (callLLM mock env apiSysPrompt (apiUserPrompt s.input) api_fallback).1
  { s with api_design := some res }

/-- agent.py lines 183-189: fixed performance catalog. -/
def performanceCatalog : List String :=
  ["Edge CDN for static assets, API behind reverse proxy with HTTP keep-alive",
   "Redis caching with 70-90% target hit rate for read-heavy endpoints",
   "Async workers for generating reports; queue depth alarms",
   "Pagination + index on created_at for submissions table",
   "Blue/green deploys and feature flags for rollouts"]

/-- agent.py lines 190-195: fixed reliability catalog. -/
def reliabilityCatalog : List String :=
  ["SLO: 99.5% availability, p95 < 400ms for analyze endpoint",
   "Retries with jitter for downstream LLM calls, idempotency keys on POST",
   "Backups daily, PITR for Postgres, replica in second region for DR (RPO 1h, RTO 4h)",
   "Health checks, autoscale based on queue length and CPU"]

/-- agent.py `_perf_rel` (lines 181-196) merged into the state: a fixed
catalog, independent of the input. -/
def perfRelNode (s : AgentState) : AgentState :=
  { s with performance_plan := some performanceCatalog,
           reliability_plan := some reliabilityCatalog }

/-- agent.py line 200. -/
def secSysPrompt : String :=
  "You are a security architect. Generate a security plan and threat model."

/-- agent.py lines 201-211: the user-prompt f-string of `_security`;
`inp.get('domain', 'general')` only defaults a missing key. -/
def secUserPrompt (inp : InputPayload) : String :=
  "\n        App: " ++ inp.app_name ++
  "\n        Domain: " ++ inp.domain.getD "general" ++
  "\n        Compliance: " ++ String.intercalate ", " inp.compliance ++
  "\n        Data Types: " ++ String.intercalate ", " inp.data_types ++
  "\n\n        Return a JSON object with:" ++
  "\n        1. 'security_plan': list of 5 security measures." ++
  "\n        2. 'threat_model': list of 3 potential threats." ++
  "\n        3. 'observability': list of 4 monitoring/logging measures." ++
  "\n        "

/-- agent.py line 212: `risk_checklist(inp.get("compliance") or
["SOC2", "GDPR"], inp.get("data_types") or ["PII"])` (empty lists falsy). -/
def sec_fb_threats (inp : InputPayload) : List String :=
  risk_checklist (pyListOr inp.compliance ["SOC2", "GDPR"])
    (pyListOr inp.data_types ["PII"])

/-- agent.py line 214: fallback security plan. -/
def sec_fb_security_plan : List String :=
  ["AuthN with OIDC", "mTLS", "Secrets Vault", "WAF", "Encryption at rest"]

/-- agent.py line 216: fallback observability list. -/
def sec_fb_observability : List String :=
  ["Prometheus metrics", "ELK logging", "Jaeger tracing", "PagerDuty alerts"]

/-- agent.py lines 213-217: the security-stage fallback object. -/
def sec_fallback (inp : InputPayload) : SecRes :=
  { security_plan := some sec_fb_security_plan
    threat_model := some (sec_fb_threats inp)
    observability := some sec_fb_observability }

/-- agent.py `_security` (lines 198-223) merged into the state. -/
def securityNode (mock : Bool) (env : LLMEnv SecRes) (s : AgentState) :
    AgentState :=
  let inp := s.input
  let res := (callLLM mock env secSysPrompt (secUserPrompt inp) (sec_fallback inp)).1
  { s with
    security_plan := some (res.security_plan.getD sec_fb_security_plan),
    threat_model := some (res.threat_model.getD (sec_fb_threats inp)),
    observability := some (res.observability.getD sec_fb_observability) }

/-- Deduplication loop of `_final` (agent.py lines 253-259): keep the first
occurrence of each string, in order; `seen` holds the strings already kept. -/
def dedupGo (seen : List String) : List String → List String
  | [] => []
  | a :: rest => if a ∈ seen then dedupGo seen rest else a :: dedupGo (a :: seen) rest

/-- agent.py lines 253-259 with the empty `seen` set the source starts from. -/
def dedupAssumptions (l : List String) : List String := dedupGo [] l

/-- agent.py line 227. -/
def finalSysPrompt : String :=
  "You are a senior technical lead. Finalize the system design report."

/-- agent.py lines 228-239: the user-prompt f-string of `_final`; a missing
`recommended_option` renders as Python `None`. -/
def finalUserPrompt (inp : InputPayload) (rec : Option String) : String :=
  "\n        App: " ++ inp.app_name ++
  "\n        Description: " ++ inp.description ++
  "\n        Scale: " ++ toString inp.dau ++ " DAU" ++
  "\n        Budget: " ++ inp.budget_level.toStr ++
  "\n        Architecture Recommended: " ++ rec.getD "None" ++
  "\n\n        Return a JSON object with:" ++
  "\n        1. 'summary': 1-2 sentence high-level summary." ++
  "\n        2. 'tech_stack': list of 6-7 specific technologies (e.g. 'Frontend: React', 'DB: Postgres')." ++
  "\n        3. 'phased_rollout': list of 3 phases (MVP, v2, v3)." ++
  "\n        "

/-- agent.py line 241: fallback summary f-string. -/
def final_fb_summary (inp : InputPayload) : String :=
  "System design for " ++ inp.app_name ++ " supporting " ++ toString inp.dau ++ " DAU."

/-- agent.py line 242: fallback tech stack. -/
def final_fb_tech_stack : List String :=
  ["FastAPI", "Postgres", "Redis", "Docker", "AWS"]

/-- agent.py line 243: fallback rollout phases. -/
def final_fb_phases : List String :=
  ["Phase 1: MVP", "Phase 2: Scale", "Phase 3: Global"]

/-- agent.py lines 240-244: the final-stage fallback object. -/
def final_fallback (inp : InputPayload) : FinalRes :=
  { summary := some (final_fb_summary inp)
    tech_stack := some final_fb_tech_stack
    phased_rollout := some final_fb_phases }

/-- agent.py lines 248-251: the two fixed cautionary risk statements appended
after whatever the threat model contributed. -/
def cautionRisks : List String :=
  ["LLM dependency latency/availability; keep mock fallback",
   "Cost overrun if prompt volume spikes; add budget guardrails"]

/-- The dict returned by `_final` (agent.py lines 261-278): every key of the
final report is present; `sizing` is `state.get("sizing", {})`, with `none`
standing for the empty dict used when the sizing stage never ran. -/
structure FinalOutput where
  summary : String
  assumptions : List String
  architecture_options : List ReportSection
  recommended_option : String
  tech_stack : List String
  sizing : Option Sizing
  api_design : List APIExample
  performance_plan : List String
  security_plan : List String
  reliability_plan : List String
  risks : List String
  phased_rollout : List String
  mermaid_flow : String
  mermaid_components : String
  observability : List String
  threat_model : List String

/-- agent.py `_final` (lines 225-278): the update dict the final node emits. -/
def finalBody (mock : Bool) (env : LLMEnv FinalRes) (s : AgentState) :
    FinalOutput :=
  let inp := s.input
  let res := (callLLM mock env finalSysPrompt
    (finalUserPrompt inp s.recommended_option) (final_fallback inp)).1
  { summary := res.summary.getD (final_fb_summary inp)
    assumptions := dedupAssumptions s.assumptions
    architecture_options := pyOrList s.architecture_options []
    recommended_option := pyOrStr s.recommended_option "N/A"
    tech_stack := res.tech_stack.getD final_fb_tech_stack
    sizing := s.sizing
    api_design := pyOrList s.api_design []
    performance_plan := pyOrList s.performance_plan []
    security_plan := pyOrList s.security_plan []
    reliability_plan := pyOrList s.reliability_plan []
    risks := pyOrList s.threat_model [] ++ cautionRisks
    phased_rollout := res.phased_rollout.getD final_fb_phases
    mermaid_flow := pyOrStr s.mermaid_flow ""
    mermaid_components := pyOrStr s.mermaid_components ""
    observability := pyOrList s.observability []
    threat_model := pyOrList s.threat_model [] }

/-- Terminal value of `workflow.invoke`: the final node's update merged into
the state.  `assumptions` is an accumulating channel (`operator.add`), so the
deduplicated list the final node emits is appended to the assumptions already
in the state rather than replacing them. -/
structure TerminalState where
  input : InputPayload
  plan_steps : List String
  summary : String
  assumptions : List String
  architecture_options : List ReportSection
  recommended_option : String
  tech_stack : List String
  sizing : Option Sizing
  api_design : List APIExample
  performance_plan : List String
  security_plan : List String
  reliability_plan : List String
  risks : List String
  phased_rollout : List String
  mermaid_flow : String
  mermaid_components : String
  observability : List String
  threat_model : List String

/-- Merge of the `final_report` node's update into the state (agent.py lines
63-64: `final_report → END`). -/
def finalNode (mock : Bool) (env : LLMEnv FinalRes) (s : AgentState) :
    TerminalState :=
  let body := finalBody mock env s
  { input := s.input
    plan_steps := s.plan_steps
    summary := body.summary
    assumptions := s.assumptions ++ body.assumptions
    architecture_options := body.architecture_options
    recommended_option := body.recommended_option
    tech_stack := body.tech_stack
    sizing := body.sizing
    api_design := body.api_design
    performance_plan := body.performance_plan
    security_plan := body.security_plan
    reliability_plan := body.reliability_plan
    risks := body.risks
    phased_rollout := body.phased_rollout
    mermaid_flow := body.mermaid_flow
    mermaid_components := body.mermaid_components
    observability := body.observability
    threat_model := body.threat_model }

/-- External-service model for the four generation-calling stages. -/
structure PipelineEnv where
  arch : LLMEnv ArchRes
  api : LLMEnv (List APIExample)
  sec : LLMEnv SecRes
  final : LLMEnv FinalRes

/-- `AgenticCopilot.run` (agent.py lines 45-69): the eight stages in graph
order intake → planner → sizing → architecture → api → perf/rel → security →
final.  `mock` is `self.mock_mode` (true iff no `OPENAI_API_KEY`). -/
def runPipeline (mock : Bool) (env : PipelineEnv) (inp : InputPayload) :
    TerminalState :=
  finalNode mock env.final
    (securityNode mock env.sec
      (perfRelNode
        (apisNode mock env.api
          (architectureNode mock env.arch
            (sizingNode
              (plannerNode
                (intakeNode (initState inp))))))))

/-- The end-to-end scenario input of the spec (dau 1000, peak_rps 50,
read_write_ratio 3, budget medium, steady traffic), remaining fields as in
tests/test_validation.py `valid_payload`. -/
def sampleInput : InputPayload :=
  { app_name := "TestApp", description := "desc", dau := 1000, peak_rps := 50,
    read_write_ratio := 3, regions := ["us-east"],
    budget_level := BudgetLevel.medium, domain := some "fintech",
    end_users := none, user_roles := [], peak_concurrent_users := none,
    traffic_pattern := TrafficPattern.steady, data_types := [],
    compliance := [], latency_target_ms_p50 := none,
    latency_target_ms_p95 := none, availability_target := none,
    rpo_hours := none, rto_hours := none, apis_needed := [],
    api_rate_limits_rpm := none, team_size := none, special_constraints := [] }

/-- An external world whose every call raises. -/
def raisingEnv : PipelineEnv :=
  { arch := { call := fun _ _ => LLMOutcome.raises, parse := fun _ => none }
    api := { call := fun _ _ => LLMOutcome.raises, parse := fun _ => none }
    sec := { call := fun _ _ => LLMOutcome.raises, parse := fun _ => none }
    final := { call := fun _ _ => LLMOutcome.raises, parse := fun _ => none } }

/-- An external world that answers every call with unparseable prose. -/
def chattyEnv : PipelineEnv :=
  { arch := { call := fun _ _ => LLMOutcome.returns "Sure, here you go!", parse := fun _ => none }
    api := { call := fun _ _ => LLMOutcome.returns "Sure, here you go!", parse := fun _ => none }
    sec := { call := fun _ _ => LLMOutcome.returns "Sure, here you go!", parse := fun _ => none }
    final := { call := fun _ _ => LLMOutcome.returns "Sure, here you go!", parse := fun _ => none } }

/-- A second input sharing only `dau` with `sampleInput`; every other field
differs. -/
def altInput : InputPayload :=
  { app_name := "OtherApp", description := "other", dau := 1000, peak_rps := 900,
    read_write_ratio := 9/2, regions := ["eu-west", "ap-south"],
    budget_level := BudgetLevel.low, domain := none,
    end_users := some "b2b", user_roles := ["admin"], peak_concurrent_users := some 77,
    traffic_pattern := TrafficPattern.spiky, data_types := ["PHI"],
    compliance := ["HIPAA"], latency_target_ms_p50 := some 100,
    latency_target_ms_p95 := some 400, availability_target := some (99/100),
    rpo_hours := some 1, rto_hours := some 4, apis_needed := ["rest"],
    api_rate_limits_rpm := some 120, team_size := some 5, special_constraints := ["none"] }

/-- Rounding to the nearest integer (ties to even) moves a value by at most
one half. -/
theorem pyRound_bounds (x : ℚ) : x - 1/2 ≤ (pyRound x : ℚ) ∧ (pyRound x : ℚ) ≤ x + 1/2 := by
  have h1 : ((⌊x⌋ : ℤ) : ℚ) ≤ x := Int.floor_le x
  have h2 : x < (⌊x⌋ : ℤ) + 1 := Int.lt_floor_add_one x
  unfold pyRound
  split_ifs with ha hb hc <;> constructor <;> push_cast <;> push_cast at h2 <;> linarith

/-- Rounding to two decimal places moves a value by at most `1/200`. -/
theorem round2_err (x : ℚ) : |round2 x - x| ≤ 1/200 := by
  have h := pyRound_bounds (x * 100)
  rw [abs_le]
  unfold round2
  constructor <;> [linarith [h.1]; linarith [h.2]]

/-- The two-decimal roundings of `R`, `P - R` and `P` sum up consistently to
within three half-cents. -/
theorem round2_add_sub (P R : ℚ) : |round2 R + round2 (P - R) - round2 P| ≤ 3/200 := by
  have hR := round2_err R
  have hW := round2_err (P - R)
  have hP := round2_err P
  rw [abs_le] at hR hW hP ⊢
  constructor <;> linarith [hR.1, hR.2, hW.1, hW.2, hP.1, hP.2]

/-- Two-decimal rounding preserves a strict inequality whose gap exceeds one
hundredth. -/
theorem round2_lt_of_gap (x y : ℚ) (h : x + 1/100 < y) : round2 x < round2 y := by
  have hx := round2_err x
  have hy := round2_err y
  rw [abs_le] at hx hy
  linarith [hx.2, hy.1]

/-- The deduplication loop only ever keeps elements of its input list. -/
theorem dedupGo_sublist (l : List String) : ∀ seen, List.Sublist (dedupGo seen l) l := by
  induction l with
  | nil => intro seen; simp [dedupGo]
  | cons a rest ih =>
    intro seen
    simp only [dedupGo]
    split
    · exact List.sublist_cons_of_sublist a (ih seen)
    · exact List.Sublist.cons₂ a (ih (a :: seen))

/-- Membership after the deduplication loop: an element survives iff it was
in the input and not already seen. -/
theorem dedupGo_mem (l : List String) : ∀ seen a, a ∈ dedupGo seen l ↔ a ∈ l ∧ a ∉ seen := by
  induction l with
  | nil => intro seen a; simp [dedupGo]
  | cons b rest ih =>
    intro seen a
    simp only [dedupGo]
    split
    · rename_i hb
      rw [ih]
      simp only [List.mem_cons]
      constructor
      · rintro ⟨hr, hs⟩; exact ⟨Or.inr hr, hs⟩
      · rintro ⟨hor, hs⟩
        rcases hor with h | h
        · exact absurd (h ▸ hb) hs
        · exact ⟨h, hs⟩
    · rename_i hb
      simp only [List.mem_cons, ih, List.mem_cons]
      by_cases hab : a = b
      · subst hab; simp [hb]
      · simp [hab]

/-- The deduplication loop emits no duplicates. -/
theorem dedupGo_nodup (l : List String) : ∀ seen, (dedupGo seen l).Nodup := by
  induction l with
  | nil => intro seen; simp [dedupGo]
  | cons a rest ih =>
    intro seen
    simp only [dedupGo]
    split
    · exact ih seen
    · refine List.nodup_cons.mpr ⟨?_, ih (a :: seen)⟩
      intro hmem
      exact ((dedupGo_mem rest (a :: seen) a).mp hmem).2 (List.mem_cons_self a seen)

/-- The deduplication loop only reads `seen` through membership. -/
theorem dedupGo_congr (l : List String) :
    ∀ s₁ s₂, (∀ x, x ∈ s₁ ↔ x ∈ s₂) → dedupGo s₁ l = dedupGo s₂ l := by
  induction l with
  | nil => intro _ _ _; simp [dedupGo]
  | cons a rest ih =>
    intro s₁ s₂ hs
    simp only [dedupGo]
    by_cases ha : a ∈ s₁
    · rw [if_pos ha, if_pos ((hs a).mp ha)]
      exact ih s₁ s₂ hs
    · rw [if_neg ha, if_neg (fun h => ha ((hs a).mpr h))]
      refine congrArg (a :: ·) (ih _ _ ?_)
      intro x; simp only [List.mem_cons]
      exact or_congr Iff.rfl (hs x)

/-- Marking `a` as seen is the same as deleting every copy of `a` from the
input. -/
theorem dedupGo_filter (l : List String) :
    ∀ seen a, dedupGo (a :: seen) l = dedupGo seen (l.filter (fun b => b != a)) := by
  induction l with
  | nil => intro _ _; simp [dedupGo]
  | cons b rest ih =>
    intro seen a
    by_cases hba : b = a
    · subst hba
      simp only [dedupGo, List.filter_cons, bne_self_eq_false]
      rw [if_pos (List.mem_cons_self b seen)]
      exact ih seen b
    · simp only [List.filter_cons, bne_iff_ne, ne_eq, hba, not_false_eq_true, if_pos]
      simp only [dedupGo]
      by_cases hbs : b ∈ seen
      · rw [if_pos (List.mem_cons_of_mem a hbs), if_pos hbs]
        exact ih seen a
      · have hb' : b ∉ a :: seen := by
          simp only [List.mem_cons]
          rintro (h | h)
          · exact hba h
          · exact hbs h
        rw [if_neg hb', if_neg hbs]
        refine congrArg (b :: ·) ?_
        rw [dedupGo_congr rest (b :: a :: seen) (a :: b :: seen)
          (by intro x; simp only [List.mem_cons]; tauto)]
        exact ih (b :: seen) a

/-- First occurrence wins: deduplicating `a :: l` keeps this `a` and deletes
every later copy of `a`. -/
theorem dedupAssumptions_cons (a : String) (l : List String) :
    dedupAssumptions (a :: l) = a :: dedupAssumptions (l.filter (fun b => b != a)) := by
  unfold dedupAssumptions
  simp only [dedupGo, List.not_mem_nil, if_neg (List.not_mem_nil a)]
  exact congrArg (a :: ·) (dedupGo_filter l [] a)

/-- In mock mode `_call_llm` never consults the external world. -/
theorem callLLM_mock (env : LLMEnv α) (sp up : String) (fb : α) :
    callLLM true env sp up fb = (fb, 0) := rfl

/-- In mock mode the whole pipeline is independent of the external world. -/
theorem runPipeline_mock_env (e₁ e₂ : PipelineEnv) (inp : InputPayload) :
    runPipeline true e₁ inp = runPipeline true e₂ inp := rfl

/-- C1: in offline mode (no generation-service credential configured) the
full pipeline yields the same terminal state regardless of the state of the
external world, so repeated runs on the same valid RunInput produce
identical output. -/
theorem offline_pipeline_deterministic (e₁ e₂ : PipelineEnv) (inp : InputPayload)
    (_hv : ValidInput inp) : runPipeline true e₁ inp = runPipeline true e₂ inp :=
  runPipeline_mock_env e₁ e₂ inp

/-- Witness for C1: the sample input is valid and two offline runs against
different external worlds agree. -/
theorem offline_pipeline_deterministic_witness :
    ValidInput sampleInput ∧
      runPipeline true raisingEnv sampleInput = runPipeline true chattyEnv sampleInput :=
  ⟨by decide, offline_pipeline_deterministic raisingEnv chattyEnv sampleInput (by decide)⟩

/-- C2, counterexample: a field not set upstream does not always default to
an empty sequence or empty string — on a state where no stage has set
`recommended_option`, the final stage emits the placeholder `"N/A"`. -/
theorem final_default_recommended_not_empty :
    (initState sampleInput).recommended_option = none ∧
      (finalNode true raisingEnv.final (initState sampleInput)).recommended_option = "N/A" ∧
      ¬ (finalNode true raisingEnv.final (initState sampleInput)).recommended_option = "" :=
  ⟨rfl, rfl, by decide⟩

/-- C2 (amended): the terminal state of the final stage contains every output
field required by the final report (the output structure is total by
construction), and a field not set upstream defaults to an empty sequence or
empty string — except `recommended_option`, which defaults to the placeholder
`"N/A"`, and `sizing`, which defaults to the empty mapping. -/
theorem final_stage_field_defaults (mock : Bool) (env : LLMEnv FinalRes) (s : AgentState) :
    (s.architecture_options = none → (finalNode mock env s).architecture_options = []) ∧
    (s.api_design = none → (finalNode mock env s).api_design = []) ∧
    (s.performance_plan = none → (finalNode mock env s).performance_plan = []) ∧
    (s.security_plan = none → (finalNode mock env s).security_plan = []) ∧
    (s.reliability_plan = none → (finalNode mock env s).reliability_plan = []) ∧
    (s.observability = none → (finalNode mock env s).observability = []) ∧
    (s.threat_model = none → (finalNode mock env s).threat_model = [] ∧
      (finalNode mock env s).risks = cautionRisks) ∧
    (s.mermaid_flow = none → (finalNode mock env s).mermaid_flow = "") ∧
    (s.mermaid_components = none → (finalNode mock env s).mermaid_components = "") ∧
    (s.recommended_option = none → (finalNode mock env s).recommended_option = "N/A") ∧
    (s.sizing = none → (finalNode mock env s).sizing = none) := by
  refine ⟨?_, ?_, ?_, ?_, ?_, ?_, ?_, ?_, ?_, ?_, ?_⟩ <;> intro h <;>
    simp [finalNode, finalBody, h, pyOrList, pyOrStr]

/-- Witness for C2 (amended) on the fresh state of the sample input. -/
theorem final_stage_field_defaults_witness :
    (finalNode true raisingEnv.final (initState sampleInput)).architecture_options = [] ∧
      (finalNode true raisingEnv.final (initState sampleInput)).mermaid_flow = "" ∧
      (finalNode true raisingEnv.final (initState sampleInput)).risks = cautionRisks :=
  ⟨(final_stage_field_defaults true raisingEnv.final (initState sampleInput)).1 rfl,
   (final_stage_field_defaults true raisingEnv.final (initState sampleInput)).2.2.2.2.2.2.2.1 rfl,
   ((final_stage_field_defaults true raisingEnv.final (initState sampleInput)).2.2.2.2.2.2.1 rfl).2⟩

/-- C3, counterexample: the claim as stated is false — a response that is
syntactically valid JSON but does not parse as structured data (object or
list), here the bare JSON string `"hello"`, is not replaced by the fallback:
`_call_llm`'s only recovery is the `except` wrapped around the service call
and `json.loads`, so the decoded ill-shaped value is returned to the stage
as-is. -/
theorem call_llm_wrong_shape_not_fallback :
    (callLLMJson false strHelloEnv "s" "u" (JsonValue.obj [])).1 = JsonValue.str "hello" ∧
    (JsonValue.str "hello").isStructured = false ∧
    ¬ (callLLMJson false strHelloEnv "s" "u" (JsonValue.obj [])).1 = JsonValue.obj [] :=
  ⟨rfl, rfl, fun h => JsonValue.noConfusion h⟩

/-- C3 (amended): the Generation Client returns the fallback immediately when
no credential is configured (no external call); otherwise it makes exactly
one external call (no retry) and returns the fallback when that call raises
any error or when the response text is not syntactically valid JSON; a
successfully decoded JSON value is returned to the stage as-is, whatever its
shape.  The client is a total function, so it itself propagates no error to
the caller. -/
theorem call_llm_contract (mock : Bool) (env : JsonLLMEnv) (sp up : String)
    (fb : JsonValue) :
    (callLLMJson mock env sp up fb).2 ≤ 1 ∧
    (mock = true → callLLMJson mock env sp up fb = (fb, 0)) ∧
    (env.call (sp ++ jsonOnlySuffix) up = LLMOutcome.raises →
      callLLMJson false env sp up fb = (fb, 1)) ∧
    (∀ raw, env.call (sp ++ jsonOnlySuffix) up = LLMOutcome.returns raw →
      env.loads (stripFences raw) = none → callLLMJson false env sp up fb = (fb, 1)) ∧
    (∀ raw j, env.call (sp ++ jsonOnlySuffix) up = LLMOutcome.returns raw →
      env.loads (stripFences raw) = some j → callLLMJson false env sp up fb = (j, 1)) := by
  refine ⟨?_, fun hm => by subst hm; rfl,
    fun hc => by simp [callLLMJson, hc],
    fun raw hc hp => by simp [callLLMJson, hc, hp],
    fun raw j hc hp => by simp [callLLMJson, hc, hp]⟩
  cases mock
  · simp only [callLLMJson, Bool.false_eq_true, if_false]
    cases hc : env.call (sp ++ jsonOnlySuffix) up with
    | raises => simp
    | returns raw => cases hp : env.loads (stripFences raw) <;> simp [hc, hp]
  · simp [callLLMJson]

/-- Witness for C3 (amended): mock mode, a raising world, and a world
answering with a bare JSON string that is decoded and passed through. -/
theorem call_llm_contract_witness :
    callLLMJson true jsonRaisingEnv "s" "u" JsonValue.null = (JsonValue.null, 0) ∧
    callLLMJson false jsonRaisingEnv "s" "u" JsonValue.null = (JsonValue.null, 1) ∧
    callLLMJson false strHelloEnv "s" "u" JsonValue.null = (JsonValue.str "hello", 1) :=
  ⟨(call_llm_contract true jsonRaisingEnv "s" "u" JsonValue.null).2.1 rfl,
   (call_llm_contract false jsonRaisingEnv "s" "u" JsonValue.null).2.2.1 rfl,
   (call_llm_contract false strHelloEnv "s" "u" JsonValue.null).2.2.2.2 "\"hello\""
     (JsonValue.str "hello") rfl rfl⟩

/-- C4, counterexample: at the valid input dau=1, peakConcurrency=1,
readWriteRatio=1, burstFactor=10.1 the rounded outputs are readQps = writeQps
= 0.50 but peakQps = 1.01, so readQps + writeQps misses peakQps by 0.01 —
far outside a 1e-5 relative tolerance (`math.isclose` style:
`|a-b| ≤ rel_tol * max(|a|,|b|)`). -/
theorem qps_sum_not_within_rel_tol :
    ¬ (|(calc_qps 1 1 1 (101/10)).read_qps + (calc_qps 1 1 1 (101/10)).write_qps -
          (calc_qps 1 1 1 (101/10)).peak_qps| ≤
        (1/100000) *
          max |(calc_qps 1 1 1 (101/10)).read_qps + (calc_qps 1 1 1 (101/10)).write_qps|
            |(calc_qps 1 1 1 (101/10)).peak_qps|) := by
  have hr : (calc_qps 1 1 1 (101/10)).read_qps = 1/2 := by
    simp only [calc_qps]; norm_num [round2, pyRound, max_def]
  have hw : (calc_qps 1 1 1 (101/10)).write_qps = 1/2 := by
    simp only [calc_qps]; norm_num [round2, pyRound, max_def]
  have hp : (calc_qps 1 1 1 (101/10)).peak_qps = 101/100 := by
    simp only [calc_qps]; norm_num [round2, pyRound, max_def]
  rw [hr, hw, hp]
  have e1 : |(1 : ℚ)/2 + 1/2 - 101/100| = 1/100 := by
    rw [abs_of_neg] <;> norm_num
  have e2 : max |(1 : ℚ)/2 + 1/2| |(101 : ℚ)/100| = 101/100 := by
    rw [abs_of_pos (by norm_num), abs_of_pos (by norm_num), max_eq_right (by norm_num)]
  rw [e1, e2]
  norm_num

/-- C4 (amended): before rounding, readQps + writeQps equals peakQps exactly;
after the three independent 2-decimal roundings the sum can deviate from
peakQps by at most 3/200 = 0.015 — a fixed absolute bound, not a 1e-5
relative one. -/
theorem qps_sum_close_to_peak (dau pc : ℕ) (ratio bf : ℚ)
    (_hdau : 1 ≤ dau) (_hpc : 1 ≤ pc) (_hr : 0 < ratio) (_hbf : 1 ≤ bf) :
    |(calc_qps dau pc ratio bf).read_qps + (calc_qps dau pc ratio bf).write_qps -
        (calc_qps dau pc ratio bf).peak_qps| ≤ 3/200 :=
  round2_add_sub
    (max ((dau : ℚ) * (1/10) / 86400) ((pc : ℚ) / 10) * bf)
    (max ((dau : ℚ) * (1/10) / 86400) ((pc : ℚ) / 10) * bf * (ratio / (1 + ratio)))

/-- Witness for C4 (amended) at dau=1000, concurrency=100, ratio=4, burst
1.4. -/
theorem qps_sum_close_to_peak_witness :
    1 ≤ 1000 ∧ 1 ≤ 100 ∧ (0 : ℚ) < 4 ∧ (1 : ℚ) ≤ 7/5 ∧
      |(calc_qps 1000 100 4 (7/5)).read_qps + (calc_qps 1000 100 4 (7/5)).write_qps -
          (calc_qps 1000 100 4 (7/5)).peak_qps| ≤ 3/200 :=
  ⟨by norm_num, by norm_num, by norm_num, by norm_num,
    qps_sum_close_to_peak 1000 100 4 (7/5) (by norm_num) (by norm_num) (by norm_num)
      (by norm_num)⟩

/-- C5, counterexample: peakQps is not strictly increasing in
peakConcurrency — at dau = 864000 the dau term dominates the `max` in
`base_qps`, so concurrency 1 and concurrency 2 produce the same peakQps. -/
theorem peak_qps_not_strictly_monotone :
    (1 : ℕ) < 2 ∧
      ¬ ((calc_qps 864000 1 4 (7/5)).peak_qps < (calc_qps 864000 2 4 (7/5)).peak_qps) := by
  have h1 : (calc_qps 864000 1 4 (7/5)).peak_qps = 7/5 := by
    simp only [calc_qps]; norm_num [round2, pyRound, max_def]
  have h2 : (calc_qps 864000 2 4 (7/5)).peak_qps = 7/5 := by
    simp only [calc_qps]; norm_num [round2, pyRound, max_def]
  exact ⟨by decide, by rw [h1, h2]; exact lt_irrefl _⟩

/-- C5 (amended): peakQps strictly increases in peakConcurrency provided the
concurrency term dominates the dau term of `base_qps` (dau ≤ 86400·c₁, which
holds in the spec's own example) and burstFactor ≥ 1, so the gap survives the
2-decimal rounding. -/
theorem peak_qps_strict_mono_in_concurrency (dau c₁ c₂ : ℕ) (ratio bf : ℚ)
    (hbf : 1 ≤ bf) (hdom : dau ≤ 86400 * c₁) (hlt : c₁ < c₂) :
    (calc_qps dau c₁ ratio bf).peak_qps < (calc_qps dau c₂ ratio bf).peak_qps := by
  have hd : (dau : ℚ) ≤ 86400 * (c₁ : ℚ) := by exact_mod_cast hdom
  have hc : (c₁ : ℚ) + 1 ≤ (c₂ : ℚ) := by exact_mod_cast hlt
  have hc₀ : (0 : ℚ) ≤ (c₁ : ℚ) := Nat.cast_nonneg c₁
  have hm₁ : max ((dau : ℚ) * (1/10) / 86400) ((c₁ : ℚ) / 10) = (c₁ : ℚ) / 10 :=
    max_eq_right (by linarith)
  have hm₂ : max ((dau : ℚ) * (1/10) / 86400) ((c₂ : ℚ) / 10) = (c₂ : ℚ) / 10 :=
    max_eq_right (by linarith)
  show round2 (max ((dau : ℚ) * (1/10) / 86400) ((c₁ : ℚ) / 10) * bf) <
    round2 (max ((dau : ℚ) * (1/10) / 86400) ((c₂ : ℚ) / 10) * bf)
  rw [hm₁, hm₂]
  apply round2_lt_of_gap
  have hgap : (1 : ℚ) * 1 ≤ bf * ((c₂ : ℚ) - (c₁ : ℚ)) :=
    mul_le_mul hbf (by linarith) (by norm_num) (by linarith)
  nlinarith [hgap]

/-- Witness for C5 (amended): the spec's example, dau=1000, ratio=4,
concurrency 100 versus 500. -/
theorem peak_qps_strict_mono_in_concurrency_witness :
    (1 : ℚ) ≤ 7/5 ∧ 1000 ≤ 86400 * 100 ∧ 100 < 500 ∧
      (calc_qps 1000 100 4 (7/5)).peak_qps < (calc_qps 1000 500 4 (7/5)).peak_qps :=
  ⟨by norm_num, by decide, by decide,
    peak_qps_strict_mono_in_concurrency 1000 100 500 4 (7/5) (by norm_num) (by decide)
      (by decide)⟩

/-- C6: the end-to-end offline scenario — dau 1000, peak 50 rps, read/write
ratio 3, medium budget, steady traffic — yields a terminal state recommending
the scale-out fallback option (budget is not low), with strictly positive
peak QPS in its sizing, and with at least the two fixed cautionary risk
statements, whatever the (unused) external world is. -/
theorem end_to_end_offline_scenario (env : PipelineEnv) :
    (runPipeline true env sampleInput).recommended_option = "Scale-out" ∧
    (∃ sz, (runPipeline true env sampleInput).sizing = some sz ∧ 0 < sz.qps.peak_qps) ∧
    2 ≤ (runPipeline true env sampleInput).risks.length := by
  have h : runPipeline true env sampleInput = runPipeline true raisingEnv sampleInput :=
    runPipeline_mock_env env raisingEnv sampleInput
  have hq : (sizingCalc sampleInput).qps.peak_qps = 14 := by
    show (calc_qps 1000 100 3 (7/5)).peak_qps = 14
    simp only [calc_qps]
    norm_num [round2, pyRound, max_def]
  rw [h]
  refine ⟨rfl, ⟨sizingCalc sampleInput, rfl, by rw [hq]; norm_num⟩, by decide⟩

/-- C7: in the Sizing stage the peak concurrency defaults to `dau / 10`
(integer division, the source's `dau // 10`) when `peak_concurrent_users` is
not supplied, and the burst factor handed to the throughput computation is
1.8 for spiky traffic and 1.4 otherwise — also when a (nonzero) concurrency
is supplied. -/
theorem sizing_concurrency_default_and_burst (inp : InputPayload) :
    (inp.peak_concurrent_users = none →
      (sizingCalc inp).qps = calc_qps inp.dau (inp.dau / 10) inp.read_write_ratio
        (if inp.traffic_pattern = TrafficPattern.spiky then 9/5 else 7/5)) ∧
    (∀ c, inp.peak_concurrent_users = some c → c ≠ 0 →
      (sizingCalc inp).qps = calc_qps inp.dau c inp.read_write_ratio
        (if inp.traffic_pattern = TrafficPattern.spiky then 9/5 else 7/5)) := by
  constructor
  · intro h
    simp [sizingCalc, sizing_peak_concurrency, sizing_multiplier, pyOrNat, h]
  · intro c h hc
    simp [sizingCalc, sizing_peak_concurrency, sizing_multiplier, pyOrNat, h, hc]

/-- Witness for C7: the sample input supplies no concurrency, so `dau / 10`
is used together with the steady burst factor 1.4. -/
theorem sizing_concurrency_default_and_burst_witness :
    sampleInput.peak_concurrent_users = none ∧
      (sizingCalc sampleInput).qps = calc_qps sampleInput.dau (sampleInput.dau / 10)
        sampleInput.read_write_ratio
        (if sampleInput.traffic_pattern = TrafficPattern.spiky then 9/5 else 7/5) :=
  ⟨rfl, (sizing_concurrency_default_and_burst sampleInput).1 rfl⟩

/-- C8: `risk_checklist` matches case-insensitively (via upper-casing)
against the three fixed categories in source order — health data first, then
payment-card data, then general personal data; each matched category
contributes its fixed advisory exactly once; a health tag among the data
types forces the health advisory; when nothing matches, the result is exactly
the one generic advisory; and when the health category matches its advisory
comes first. -/
theorem risk_checklist_classification (c d : List String) :
    (hasHealthTag d = true → riskPHI ∈ risk_checklist c d) ∧
    (hasHealthTag (c ++ d) = false → hasCardTag (c ++ d) = false → hasPiiTag d = false →
      risk_checklist c d = [riskGeneric]) ∧
    ((risk_checklist c d).count riskPHI = if hasHealthTag (c ++ d) then 1 else 0) ∧
    ((risk_checklist c d).count riskPCI = if hasCardTag (c ++ d) then 1 else 0) ∧
    ((risk_checklist c d).count riskPII = if hasPiiTag d then 1 else 0) ∧
    (hasHealthTag (c ++ d) = true → (risk_checklist c d).head? = some riskPHI) := by
  have hsub : hasHealthTag d = true → hasHealthTag (c ++ d) = true := by
    intro h
    simp only [hasHealthTag, List.any_append, Bool.or_eq_true]
    exact Or.inr h
  refine ⟨?_, ?_, ?_, ?_, ?_, ?_⟩
  · intro h
    have hH := hsub h
    cases hC : hasCardTag (c ++ d) <;> cases hP : hasPiiTag d <;>
      simp [risk_checklist, hH, hC, hP]
  · intro h1 h2 h3
    simp [risk_checklist, h1, h2, h3]
  · cases hH : hasHealthTag (c ++ d) <;> cases hC : hasCardTag (c ++ d) <;>
      cases hP : hasPiiTag d <;> simp [risk_checklist, hH, hC, hP] <;> decide
  · cases hH : hasHealthTag (c ++ d) <;> cases hC : hasCardTag (c ++ d) <;>
      cases hP : hasPiiTag d <;> simp [risk_checklist, hH, hC, hP] <;> decide
  · cases hH : hasHealthTag (c ++ d) <;> cases hC : hasCardTag (c ++ d) <;>
      cases hP : hasPiiTag d <;> simp [risk_checklist, hH, hC, hP] <;> decide
  · intro hH
    cases hC : hasCardTag (c ++ d) <;> cases hP : hasPiiTag d <;>
      simp [risk_checklist, hH, hC, hP]

/-- Witness for C8: a lowercase health tag in the data types forces the
health advisory, and empty flag lists yield exactly the generic advisory. -/
theorem risk_checklist_classification_witness :
    riskPHI ∈ risk_checklist [] ["phi"] ∧ risk_checklist [] [] = [riskGeneric] :=
  ⟨(risk_checklist_classification [] ["phi"]).1 (by decide),
   (risk_checklist_classification [] []).2.1 (by decide) (by decide) (by decide)⟩

/-- C9: the assumptions list emitted by the final stage is the accumulated
assumptions deduplicated by exact string identity — it contains no duplicate
strings, is a sublist of the accumulated list (so the order of first
occurrences is preserved), retains exactly the same set of strings, and the
first occurrence of each string is the one kept (a leading element is kept
and its later copies are the ones deleted). -/
theorem final_emitted_assumptions_nodup (mock : Bool) (env : LLMEnv FinalRes)
    (s : AgentState) :
    ((finalBody mock env s).assumptions).Nodup ∧
    List.Sublist (finalBody mock env s).assumptions s.assumptions ∧
    (∀ a, a ∈ (finalBody mock env s).assumptions ↔ a ∈ s.assumptions) ∧
    (∀ (a : String) (l : List String),
      dedupAssumptions (a :: l) = a :: dedupAssumptions (l.filter (fun b => b != a))) := by
  have he : (finalBody mock env s).assumptions = dedupAssumptions s.assumptions := rfl
  rw [he]
  refine ⟨dedupGo_nodup s.assumptions [], dedupGo_sublist s.assumptions [], ?_, ?_⟩
  · intro a
    unfold dedupAssumptions
    rw [dedupGo_mem]
    simp
  · intro a l
    exact dedupAssumptions_cons a l

/-- C10: the Sizing stage computes its storage estimate with the fixed
parameters 12 records per user, 8 KB average record size and 365 retention
days, so the storage part of the sizing depends only on `dau` and on no other
input field. -/
theorem storage_depends_only_on_dau (inp₁ inp₂ : InputPayload) (h : inp₁.dau = inp₂.dau) :
    (sizingCalc inp₁).storage = calc_storage 12 8 365 inp₁.dau ∧
    (sizingCalc inp₁).storage = (sizingCalc inp₂).storage := by
  refine ⟨rfl, ?_⟩
  show calc_storage 12 8 365 inp₁.dau = calc_storage 12 8 365 inp₂.dau
  rw [h]

/-- Witness for C10: two inputs agreeing only on `dau` get the same storage
estimate. -/
theorem storage_depends_only_on_dau_witness :
    sampleInput.dau = altInput.dau ∧
      (sizingCalc sampleInput).storage = (sizingCalc altInput).storage :=
  ⟨rfl, (storage_depends_only_on_dau sampleInput altInput rfl).2⟩
